import Mathlib

/-!
Verification development for a small GitHub read-only tool server
(`src/github_mcp/github_client.py` and `src/github_mcp/server.py`).

The Python source is shallowly embedded: every definition below mirrors a
function (or a fragment of one) of the source.  Python exceptions are
modelled with `Except String`: a raised `ValueError`/`KeyError` becomes
`.error msg` carrying `str(e)`, and a `try/except` boundary becomes a
`match` on the `Except` value.  JSON values are modelled by the inductive
`JVal`; strings are Lean `String`s, with claim-relevant string operations
reimplemented structurally over `List Char` so that they compute by kernel
reduction.
-/

/-- Substring containment: `pat` occurs contiguously inside `s`.
Models the Python expression `pat in s` on `str`. -/
def containsSub (s pat : String) : Prop := pat.data <:+: s.data

instance (s pat : String) : Decidable (containsSub s pat) := by
  unfold containsSub; infer_instance

/-- ASCII lowering of one character; models `str.lower` per character
(the upstream bodies compared against are ASCII). -/
def lowerChar (c : Char) : Char := c.toLower

/-- Models Python `s.lower()` (ASCII range). -/
def lowerStr (s : String) : String := String.mk (s.data.map lowerChar)

/-- Python truthiness-based defaulting for strings: `v or d` replaces both a
missing value (`None`) and the empty string by the default `d`. -/
def pyOr (v : Option String) (d : String) : String :=
  match v with
  | none => d
  | some s => if s = "" then d else s

/-- `github_client._api_request`, error branch (`github_client.py` lines
91-115): the `ValueError` message raised for a non-2xx upstream status,
as a function of the status code, the response body and the
`X-RateLimit-Reset` response header. -/
def api_error_message (status : Nat) (body : String)
    (rate_limit_reset : Option String) : String :=
  if status = 401 then
    "Authentication failed. Check your GITHUB_TOKEN."
  else if status = 403 then
    -- Could be rate limit or insufficient permissions
    if containsSub (lowerStr body) "rate limit" then
      "GitHub API rate limit exceeded. Resets at: " ++ rate_limit_reset.getD "unknown"
    else
      "Access forbidden. Check token permissions (need 'repo' scope)."
  else if status = 404 then
    "Resource not found or not accessible."
  else
    "GitHub API error: " ++ body

/-- `str.split(sep, (one))` helper used by `_parse_repo_name`: splits a
character list at the first occurrence of a slash. -/
def split_first_slash : List Char → List Char × List Char
  | [] => ([], [])
  | c :: cs =>
    if c = '/' then ([], cs)
    else
      let p := split_first_slash cs
      (c :: p.1, p.2)

/-- `github_client._parse_repo_name` (`github_client.py` lines 117-132):
`owner/repo` splits on the first slash only, a bare name gets the
configured username as owner. -/
def parse_repo_name (username repo_name : String) : String × String :=
  if '/' ∈ repo_name.data then
    let p := split_first_slash repo_name.data
    (String.mk p.1, String.mk p.2)
  else
    -- assume authenticated user's repo
    (username, repo_name)

/-- JSON-like values as delivered by the upstream API (floats do not occur
in the endpoints the claims touch and are omitted from the model). -/
inductive JVal where
  | null : JVal
  | bool (b : Bool) : JVal
  | int (n : Int) : JVal
  | str (s : String) : JVal
  | arr (xs : List JVal) : JVal
  | obj (fields : List (String × JVal)) : JVal

/-- Whether a `JVal` is a mapping; models `isinstance(languages, dict)`. -/
def JVal.isObj : JVal → Bool
  | .obj _ => true
  | _ => false

/-- A non-empty all-digit character list read as a natural number. -/
def parseDigits (l : List Char) : Option Nat :=
  if l.isEmpty then none
  else if l.all Char.isDigit then
    some (l.foldl (fun acc c => acc * 10 + (c.toNat - 48)) 0)
  else none

/-- An optional sign followed by decimal digits, read as an integer. -/
def parseIntChars : List Char → Option Int
  | '-' :: rest => (parseDigits rest).map (fun n => -(n : Int))
  | '+' :: rest => (parseDigits rest).map (fun n => (n : Int))
  | l => (parseDigits l).map (fun n => (n : Int))

/-- Leading and trailing spaces removed, as `int(str)` strips whitespace. -/
def stripSpaces (l : List Char) : List Char :=
  (((l.dropWhile (fun c => c = ' ')).reverse.dropWhile (fun c => c = ' ')).reverse)

/-- Models Python `int(v)` restricted to the shapes of `JVal`, under the
`except (ValueError, TypeError)` of `get_repo_details`: `none` stands for
the exception being raised.  String parsing is approximated by an optional
sign and decimal digits after stripping spaces, which covers the accepted
inputs relevant here. -/
def pyInt : JVal → Option Int
  | .int n => some n
  | .bool b => some (if b then 1 else 0)
  | .str s => parseIntChars (stripSpaces s.data)
  | _ => none

/-- `github_client.get_repo_details`, language-coercion step
(`github_client.py` lines 177-198): a mapping keeps exactly the entries
whose values coerce to `int`; any non-mapping shape yields the empty
breakdown. -/
def coerce_languages (languages : JVal) : List (String × Int) :=
  match languages with
  | .obj fields => fields.filterMap (fun p => (pyInt p.2).map (fun n => (p.1, n)))
  | _ => []

/-- `github_client.get_repo_details` (`github_client.py` lines 156-203)
as a function of the two upstream fetch outcomes: the primary repository
fetch propagates its failure, while the secondary languages fetch is
absorbed (`except (ValueError, httpx.HTTPError)` and the non-dict branch
both leave an empty breakdown). -/
def get_repo_details_client (primary : Except String JVal)
    (languages : Except String JVal) : Except String (JVal × List (String × Int)) :=
  match primary with
  | .error e => .error e
  | .ok repo_data =>
    .ok (repo_data,
      match languages with
      | .error _ => []
      | .ok l => coerce_languages l)

/-- `github_client.get_user_repos` query parameters (`github_client.py`
lines 147-151); the integer `per_page` value is rendered as the HTTP layer
would send it. -/
def get_user_repos_params (per_page : Int) (sort : String) : List (String × String) :=
  [("per_page", toString (min per_page 100)),
   ("sort", sort),
   ("affiliation", "owner,collaborator,organization_member")]

/-- `github_client.search_code` query parameters (`github_client.py`
lines 219-222): the query is scoped to the configured user. -/
def search_code_params (username query : String) (per_page : Int) :
    List (String × String) :=
  [("q", query ++ " user:" ++ username),
   ("per_page", toString (min per_page 100))]

/-- `github_client.get_user_events` query parameters (`github_client.py`
line 236). -/
def get_user_events_params (per_page : Int) : List (String × String) :=
  [("per_page", toString (min per_page 100))]

/-- Round-half-up of the rational `p / q` (for `q > 0`), computed in integer
arithmetic so that it reduces in the kernel.  Models the one-decimal rounding
performed by the percentage formatting in `server.get_repo_details`
(`server.py` lines 270-272); CPython format rounding is half-even on a
binary double, which agrees with exact rational rounding away from exact
midpoints. -/
def round_div (p q : Int) : Int := (2 * p + q) / (2 * q)

/-- Digits of an integer as rendered by Python (`toString` agrees with
`str(int)` on all integers). -/
def intDigits (n : Int) : String := toString n

/-- One-decimal rendering of the rational `p / q * 100` as in the f-string
`"- lang: {percentage:.1f}%"`; for a non-positive total the source
substitutes the integer 0, which formats as "0.0". -/
def fmt_pct (bytes_count total : Int) : String :=
  if 0 < total then
    let n : Int := round_div (bytes_count * 1000) total
    (if n < 0 then "-" else "") ++ intDigits (n.natAbs / 10) ++ "." ++ intDigits (n.natAbs % 10)
  else "0.0"

/-- Descending-by-byte-count comparison used to model
`sorted(language_breakdown.items(), key=lambda x: x[1], reverse=True)`
(`server.py` lines 266-268); insertion sort is stable, like Python sort. -/
def byBytesDesc (a b : String × Int) : Prop := b.2 ≤ a.2

instance : DecidableRel byBytesDesc := fun a b => Int.decLe b.2 a.2

instance : IsTotal (String × Int) byBytesDesc :=
  ⟨fun a b => le_total b.2 a.2⟩

instance : IsTrans (String × Int) byBytesDesc :=
  ⟨ fun _ _ _ hab hbc => le_trans hbc hab ⟩

/-- `server.get_repo_details`, language-breakdown section (`server.py`
lines 262-274): for a non-empty breakdown, a header, one percentage line
for each of the five largest languages, and a count line for any
remainder. -/
def language_section (language_breakdown : List (String × Int)) : List String :=
  if language_breakdown.isEmpty then []
  else
    let sorted_langs := List.insertionSort byBytesDesc language_breakdown
    let total_bytes : Int := (language_breakdown.map Prod.snd).sum
    "\n## Language Breakdown"
      :: (sorted_langs.take 5).map (fun p => "- " ++ p.1 ++ ": " ++ fmt_pct p.2 total_bytes ++ "%")
      ++ (if 5 < sorted_langs.length then
            ["- ...and " ++ intDigits (sorted_langs.length - 5) ++ " more"]
          else [])

/-- Whether a string starts with `YYYY-MM-DD` and, if longer, continues with
a `T` separator.  Modelled guard for `datetime.fromisoformat` succeeding on
the timestamp strings the upstream API emits; `none`-producing callers
below treat a failed guard as the raised exception. -/
def isoDateGuard (s : String) : Bool :=
  match s.data with
  | y1 :: y2 :: y3 :: y4 :: '-' :: m1 :: m2 :: '-' :: d1 :: d2 :: rest =>
    (y1.isDigit && y2.isDigit && y3.isDigit && y4.isDigit &&
     m1.isDigit && m2.isDigit && d1.isDigit && d2.isDigit) &&
    (rest.isEmpty || rest.headD ' ' = 'T')
  | _ => false

/-- Modelled from `datetime.fromisoformat(s.replace("Z", "+00:00"))` followed
by `strftime("%Y-%m-%d")`: for a well-formed ISO-8601 timestamp this is its
first ten characters; `none` models the exception for anything else.  No
claim depends on date rendering. -/
def strftime_date (s : String) : Option String :=
  if isoDateGuard s then some (String.mk (s.data.take 10)) else none

/-- Modelled from `datetime.fromisoformat` followed by
`strftime("%Y-%m-%d %H:%M")` for event timestamps. -/
def strftime_datetime (s : String) : Option String :=
  if isoDateGuard s then
    if s.data.length ≥ 16 then
      some (String.mk (s.data.take 10 ++ ' ' :: (s.data.drop 11).take 5))
    else some (String.mk (s.data.take 10) ++ " 00:00")
  else none

/-- Projection of an upstream repository JSON object onto the fields
`server.get_my_repos` reads with `.get`; a `none` field models a missing
key (`private` is a Python keyword-free name in the source, renamed here
because `private` is reserved in Lean). -/
structure RepoObj where
  name : Option String
  full_name : Option String
  description : Option String
  stargazers_count : Option Int
  forks_count : Option Int
  language : Option String
  isPrivate : Option Bool
  updated_at : Option String
  html_url : Option String

/-- `server.get_my_repos`, per-repository lines (`server.py` lines 171-201). -/
def format_repo_lines (repo : RepoObj) : List String :=
  let name := repo.name.getD "Unknown"
  let full_name := repo.full_name.getD name
  let description := pyOr repo.description "No description"
  let stars := repo.stargazers_count.getD 0
  let forks := repo.forks_count.getD 0
  let language := pyOr repo.language "Not specified"
  let visibility := if repo.isPrivate.getD false then "Private" else "Public"
  let updated_at := repo.updated_at.getD ""
  let updated_str :=
    if updated_at ≠ "" then (strftime_date updated_at).getD updated_at
    else "Unknown"
  let html_url := repo.html_url.getD ""
  ["\n## " ++ full_name,
   "**Description:** " ++ description,
   "**Stats:** ⭐ " ++ intDigits stars ++ " stars | 🍴 " ++ intDigits forks
     ++ " forks | 📅 Updated " ++ updated_str,
   "**Language:** " ++ language ++ " | **Visibility:** " ++ visibility]
  ++ (if html_url ≠ "" then ["**URL:** " ++ html_url] else [])

/-- `server.get_my_repos`, full text for a non-empty repository list
(`server.py` lines 168-207). -/
def repos_text (username : String) (repos : List RepoObj) : String :=
  let total_stars : Int := (repos.map (fun r => r.stargazers_count.getD 0)).sum
  String.intercalate "\n"
    (["# Repositories for " ++ username ++ "\n",
      "Found " ++ intDigits repos.length ++ " repositories (sorted by recently updated)\n"]
     ++ (repos.map format_repo_lines).flatten
     ++ ["\n**Total stars across all repositories:** " ++ intDigits total_stars])

/-- Projection of the upstream repository-detail object (with the
`language_breakdown` the client attached) onto the fields
`server.get_repo_details` reads.  `license` is `none` when absent and
`some name?` for a license object with an optional display name. -/
structure DetailObj where
  full_name : Option String
  description : Option String
  stargazers_count : Option Int
  forks_count : Option Int
  watchers_count : Option Int
  open_issues_count : Option Int
  language : Option String
  isPrivate : Option Bool
  created_at : Option String
  updated_at : Option String
  default_branch : Option String
  language_breakdown : List (String × Int)
  topics : List String
  html_url : Option String
  homepage : Option String
  license : Option (Option String)

/-- The shared `try` around both date conversions in `server.get_repo_details`
(`server.py` lines 228-241): if either conversion raises, both fall back to
the raw value (empty mapped to "Unknown"). -/
def detail_dates (created_at updated_at : String) : String × String :=
  let cOk := created_at = "" ∨ (strftime_date created_at).isSome
  let uOk := updated_at = "" ∨ (strftime_date updated_at).isSome
  if cOk ∧ uOk then
    ((if created_at ≠ "" then (strftime_date created_at).getD created_at else "Unknown"),
     (if updated_at ≠ "" then (strftime_date updated_at).getD updated_at else "Unknown"))
  else
    ((if created_at = "" then "Unknown" else created_at),
     (if updated_at = "" then "Unknown" else updated_at))

/-- `server.get_repo_details`, full text (`server.py` lines 210-297). -/
def detail_text (repo_name : String) (repo : DetailObj) : String :=
  let full_name := repo.full_name.getD repo_name
  let description := pyOr repo.description "No description provided"
  let stars := repo.stargazers_count.getD 0
  let forks := repo.forks_count.getD 0
  let watchers := repo.watchers_count.getD 0
  let open_issues := repo.open_issues_count.getD 0
  let language := pyOr repo.language "Not specified"
  let visibility := if repo.isPrivate.getD false then "Private" else "Public"
  let dates := detail_dates (repo.created_at.getD "") (repo.updated_at.getD "")
  let default_branch := repo.default_branch.getD "main"
  let html_url := repo.html_url.getD ""
  String.intercalate "\n"
    (["# " ++ full_name ++ "\n",
      "**Description:** " ++ description ++ "\n",
      "## Statistics",
      "- ⭐ Stars: " ++ intDigits stars,
      "- 🍴 Forks: " ++ intDigits forks,
      "- 👀 Watchers: " ++ intDigits watchers,
      "- 🐛 Open Issues: " ++ intDigits open_issues,
      "\n## Details",
      "- **Primary Language:** " ++ language,
      "- **Visibility:** " ++ visibility,
      "- **Default Branch:** " ++ default_branch,
      "- **Created:** " ++ dates.1,
      "- **Last Updated:** " ++ dates.2]
     ++ language_section repo.language_breakdown
     ++ (if repo.topics.isEmpty then []
         else ["\n## Topics", String.intercalate ", " repo.topics])
     ++ ["\n## Links"]
     ++ (if html_url ≠ "" then ["- **Repository:** " ++ html_url] else [])
     ++ (match repo.homepage with
         | none => []
         | some h => if h = "" then [] else ["- **Homepage:** " ++ h])
     ++ (match repo.license with
         | none => []
         | some license_name => ["\n**License:** " ++ license_name.getD "Unknown"]))

/-- One item of the code-search response, projected onto the fields
`server.search_my_code` reads (`item.get("repository", {}).get("full_name",
"Unknown")` is flattened into one optional field). -/
structure SearchItem where
  repository_full_name : Option String
  path : Option String
  html_url : Option String

/-- The code-search response object: `{total_count, items}`. -/
structure SearchObj where
  total_count : Option Int
  items : List SearchItem

/-- `server.search_my_code`, per-item lines (`server.py` lines 319-327). -/
def format_search_item (item : SearchItem) : List String :=
  let repo_name := item.repository_full_name.getD "Unknown"
  let file_path := item.path.getD "Unknown"
  let html_url := item.html_url.getD ""
  ["\n## " ++ repo_name ++ ": " ++ file_path]
  ++ (if html_url ≠ "" then ["**URL:** " ++ html_url] else [])

/-- `server.search_my_code`, full text for a non-zero total count
(`server.py` lines 316-333). -/
def search_text (query : String) (total_count : Int) (items : List SearchItem) : String :=
  String.intercalate "\n"
    (["# Code Search Results for '" ++ query ++ "'\n",
      "Found " ++ intDigits total_count ++ " matches (showing first "
        ++ intDigits items.length ++ ")\n"]
     ++ (items.map format_search_item).flatten)

/-- The payload fields `server.get_recent_activity` reads, with the nested
`.get` chains (`payload.get("pull_request", {}).get("title", ...)` etc.)
flattened into one optional field each. -/
structure PayloadObj where
  commits : Option (List JVal)
  ref : Option String
  action : Option String
  pr_title : Option String
  issue_title : Option String
  ref_type : Option String

/-- An upstream activity event, projected onto the fields the server reads. -/
structure EventObj where
  type : Option String
  repo_name : Option String
  created_at : Option String
  payload : PayloadObj

/-- Last path segment of a ref string: `ref.split("/")[-1]` when the ref
contains a slash, else the whole ref (`server.py` line 366). -/
def branch_of_ref (ref : String) : String :=
  if '/' ∈ ref.data then
    String.mk (((split_first_slash ref.data).2.reverse.takeWhile (fun c => c ≠ '/')).reverse)
  else ref

/-- `server.get_recent_activity`, per-event lines (`server.py` lines 347-402). -/
def format_event (e : EventObj) : List String :=
  let event_type := e.type.getD "Unknown"
  let repo_name := e.repo_name.getD "Unknown"
  let created_at := e.created_at.getD ""
  let time_str := (strftime_datetime created_at).getD created_at
  (if event_type = "PushEvent" then
    let commits := e.payload.commits.getD []
    let ref := e.payload.ref.getD "unknown branch"
    ["\n📝 **Push** to " ++ repo_name ++ " (" ++ branch_of_ref ref ++ ") - "
       ++ intDigits commits.length ++ " commit(s)"]
  else if event_type = "PullRequestEvent" then
    ["\n🔀 **Pull Request** " ++ e.payload.action.getD "unknown" ++ " in " ++ repo_name,
     "   " ++ e.payload.pr_title.getD "Unknown PR"]
  else if event_type = "IssuesEvent" then
    ["\n🐛 **Issue** " ++ e.payload.action.getD "unknown" ++ " in " ++ repo_name,
     "   " ++ e.payload.issue_title.getD "Unknown Issue"]
  else if event_type = "CreateEvent" then
    ["\n✨ **Created** " ++ e.payload.ref_type.getD "unknown" ++ " in " ++ repo_name]
  else if event_type = "WatchEvent" then
    ["\n⭐ **Starred** " ++ repo_name]
  else if event_type = "ForkEvent" then
    ["\n🍴 **Forked** " ++ repo_name]
  else
    ["\n📌 **" ++ event_type ++ "** in " ++ repo_name])
  ++ ["   *" ++ time_str ++ "*"]

/-- `server.get_recent_activity`, full text for a non-empty event list
(`server.py` lines 344-404). -/
def events_text (username : String) (events : List EventObj) : String :=
  String.intercalate "\n"
    (["# Recent Activity for " ++ username ++ "\n",
      "Showing last " ++ intDigits events.length ++ " events\n"]
     ++ (events.map format_event).flatten)

/-- The GitHub client as the server sees it: the configured username and the
four operations, each returning either a parsed response or the message of
the exception it raises (the `ValueError`s of `api_error_message`, or a
transport error). -/
structure GitHubClientM where
  username : String
  get_user_repos : Int → Except String (List RepoObj)
  get_repo_details : String → Except String DetailObj
  search_code : String → Int → Except String SearchObj
  get_user_events : Int → Except String (List EventObj)

/-- `server.get_my_repos` (`server.py` lines 160-207): a failure of the
client call propagates; an empty list yields the explicit no-repositories
text block. -/
def get_my_repos (gh : GitHubClientM) (limit : Int) : Except String (List String) :=
  match gh.get_user_repos limit with
  | .error e => .error e
  | .ok repos =>
    if repos.isEmpty then .ok ["No repositories found."]
    else .ok [repos_text gh.username repos]

/-- `server.get_repo_details` (`server.py` lines 210-297). -/
def get_repo_details (gh : GitHubClientM) (repo_name : String) :
    Except String (List String) :=
  match gh.get_repo_details repo_name with
  | .error e => .error e
  | .ok repo => .ok [detail_text repo_name repo]

/-- `server.search_my_code` (`server.py` lines 300-333): a zero
`total_count` yields the explicit no-matches text block. -/
def search_my_code (gh : GitHubClientM) (query : String) (limit : Int) :
    Except String (List String) :=
  match gh.search_code query limit with
  | .error e => .error e
  | .ok results =>
    if results.total_count.getD 0 = 0 then
      .ok ["No code matches found for query: '" ++ query ++ "'"]
    else .ok [search_text query (results.total_count.getD 0) results.items]

/-- `server.get_recent_activity` (`server.py` lines 336-404). -/
def get_recent_activity (gh : GitHubClientM) (limit : Int) :
    Except String (List String) :=
  match gh.get_user_events limit with
  | .error e => .error e
  | .ok events =>
    if events.isEmpty then .ok ["No recent activity found."]
    else .ok [events_text gh.username events]

/-- The argument mapping of a tool call, restricted to the three keys the
four tools read; a `none` field models the key being absent from the
dictionary. -/
structure ToolArgs where
  limit : Option Int
  repo_name : Option String
  query : Option String

/-- The `try` body of `server.call_tool` (`server.py` lines 138-153):
argument extraction (`arguments["k"]` raises `KeyError("k")`, whose
`str` is the quoted key), handler invocation, and the unknown-tool
`ValueError`. -/
def dispatch (gh : GitHubClientM) (name : String) (args : ToolArgs) :
    Except String (List String) :=
  if name = "get_my_repos" then
    get_my_repos gh (args.limit.getD 30)
  else if name = "get_repo_details" then
    match args.repo_name with
    | none => .error "'repo_name'"
    | some repo_name => get_repo_details gh repo_name
  else if name = "search_my_code" then
    match args.query with
    | none => .error "'query'"
    | some query => search_my_code gh query (args.limit.getD 30)
  else if name = "get_recent_activity" then
    get_recent_activity gh (args.limit.getD 30)
  else
    .error ("Unknown tool: " ++ name)

/-- `server.call_tool` (`server.py` lines 126-157): the single outermost
`except Exception` turns any escaping failure into the one-block
`Error: {message}` result. -/
def call_tool (gh : GitHubClientM) (name : String) (args : ToolArgs) :
    List String :=
  match dispatch gh name args with
  | .ok blocks => blocks
  | .error e => ["Error: " ++ e]

/-- A concrete client whose upstream returns empty results, used to
evaluate the dispatcher at concrete inputs. -/
def ghEmpty : GitHubClientM where
  username := "jw1"
  get_user_repos := fun _ => .ok []
  get_repo_details := fun _ => .error "Resource not found or not accessible."
  search_code := fun _ _ => .ok { total_count := some 0, items := [] }
  get_user_events := fun _ => .ok []

/-- A substring of `s` is a substring of `s ++ t`. -/
theorem containsSub_append_left (s t pat : String) (h : containsSub s pat) :
    containsSub (s ++ t) pat := by
  obtain ⟨a, b, hab⟩ := h
  exact ⟨a, b ++ t.data, by rw [String.data_append, ← hab]; simp⟩

/-- `t` is a substring of `s ++ t`. -/
theorem containsSub_append_right (s t : String) : containsSub (s ++ t) t :=
  ⟨s.data, [], by rw [String.data_append]; simp⟩

/-- `split_first_slash` splits at the first slash: the two pieces flank one
slash and reassemble the input, and the left piece is slash-free. -/
theorem split_first_slash_spec (l : List Char) (h : '/' ∈ l) :
    (split_first_slash l).1 ++ '/' :: (split_first_slash l).2 = l
    ∧ '/' ∉ (split_first_slash l).1 := by
  induction l with
  | nil => cases h
  | cons c cs ih =>
    by_cases hc : c = '/'
    · subst hc; simp [split_first_slash]
    · have hmem : '/' ∈ cs := by
        rcases List.mem_cons.mp h with h1 | h2
        · exact absurd h1.symm hc
        · exact h2
      obtain ⟨h1, h2⟩ := ih hmem
      refine ⟨?_, ?_⟩
      · simpa [split_first_slash, hc] using h1
      · intro hbad
        rcases List.mem_cons.mp (by simpa [split_first_slash, hc] using hbad) with h3 | h4
        · exact hc h3.symm
        · exact h2 h4

/-- Integer round-half-up coincides with `round` of the exact rational. -/
theorem round_div_eq_round (p q : Int) (h : 0 < q) :
    round_div p q = round ((p : ℚ) / (q : ℚ)) := by
  have h2q : (0 : ℤ) ≤ 2 * q := by omega
  have hqne : ((q : ℤ) : ℚ) ≠ 0 := by
    exact_mod_cast (by omega : (q : ℤ) ≠ 0)
  rw [round_eq]
  have key : (p : ℚ) / (q : ℚ) + 1 / 2 = ((2 * p + q : ℤ) : ℚ) / (((2 * q : ℤ).toNat : ℕ) : ℚ) := by
    have hcast : (((2 * q : ℤ).toNat : ℕ) : ℚ) = ((2 * q : ℤ) : ℚ) := by
      exact_mod_cast congrArg (fun z : ℤ => (z : ℚ)) (Int.toNat_of_nonneg h2q)
    rw [hcast]
    push_cast
    field_simp
    ring
  rw [key, Rat.floor_intCast_div_natCast, Int.toNat_of_nonneg h2q]
  rfl

/-- Every success of the repo-list handler is a single text block. -/
theorem get_my_repos_ok_singleton (gh : GitHubClientM) (limit : Int)
    (bs : List String) (h : get_my_repos gh limit = .ok bs) : ∃ t, bs = [t] := by
  rcases hv : gh.get_user_repos limit with e | repos
  all_goals simp only [get_my_repos, hv] at h
  · exact Except.noConfusion h
  · split at h <;> (injection h with h2; exact ⟨_, h2.symm⟩)

/-- Every success of the repo-detail handler is a single text block. -/
theorem get_repo_details_ok_singleton (gh : GitHubClientM) (repo_name : String)
    (bs : List String) (h : get_repo_details gh repo_name = .ok bs) : ∃ t, bs = [t] := by
  rcases hv : gh.get_repo_details repo_name with e | repo
  all_goals simp only [get_repo_details, hv] at h
  · exact Except.noConfusion h
  · injection h with h2; exact ⟨_, h2.symm⟩

/-- Every success of the code-search handler is a single text block. -/
theorem search_my_code_ok_singleton (gh : GitHubClientM) (query : String) (limit : Int)
    (bs : List String) (h : search_my_code gh query limit = .ok bs) : ∃ t, bs = [t] := by
  rcases hv : gh.search_code query limit with e | results
  all_goals simp only [search_my_code, hv] at h
  · exact Except.noConfusion h
  · split at h <;> (injection h with h2; exact ⟨_, h2.symm⟩)

/-- Every success of the activity handler is a single text block. -/
theorem get_recent_activity_ok_singleton (gh : GitHubClientM) (limit : Int)
    (bs : List String) (h : get_recent_activity gh limit = .ok bs) : ∃ t, bs = [t] := by
  rcases hv : gh.get_user_events limit with e | events
  all_goals simp only [get_recent_activity, hv] at h
  · exact Except.noConfusion h
  · split at h <;> (injection h with h2; exact ⟨_, h2.symm⟩)

/-- Every success of the dispatch body is a single text block. -/
theorem dispatch_ok_singleton (gh : GitHubClientM) (name : String) (args : ToolArgs)
    (bs : List String) (h : dispatch gh name args = .ok bs) : ∃ t, bs = [t] := by
  obtain ⟨lim, rn, q⟩ := args
  simp only [dispatch] at h
  split at h
  · exact get_my_repos_ok_singleton _ _ _ h
  · split at h
    · split at h
      · exact Except.noConfusion h
      · exact get_repo_details_ok_singleton _ _ _ h
    · split at h
      · split at h
        · exact Except.noConfusion h
        · exact search_my_code_ok_singleton _ _ _ _ h
      · split at h
        · exact get_recent_activity_ok_singleton _ _ _ h
        · exact Except.noConfusion h

/-- C1: contrary to the spec and to the repository's own tests
(`tests/test_server_tools.py`, `test_validates_limit_*`), the dispatcher
performs no `limit` validation whatsoever: the out-of-range values 0, -5
and 101 are passed through to the upstream call exactly like the in-range
values 1 and 100, the call succeeds, and no text containing "limit must be
between 1 and 100" is ever produced. -/
theorem c1_limit_out_of_range_not_rejected :
    call_tool ghEmpty "get_my_repos" ⟨some 0, none, none⟩ = ["No repositories found."]
    ∧ call_tool ghEmpty "get_my_repos" ⟨some (-5), none, none⟩ = ["No repositories found."]
    ∧ call_tool ghEmpty "get_my_repos" ⟨some 101, none, none⟩ = ["No repositories found."]
    ∧ call_tool ghEmpty "get_my_repos" ⟨some 1, none, none⟩ = ["No repositories found."]
    ∧ call_tool ghEmpty "get_my_repos" ⟨some 100, none, none⟩ = ["No repositories found."]
    ∧ call_tool ghEmpty "search_my_code" ⟨some 150, none, some "x"⟩
        = ["No code matches found for query: 'x'"]
    ∧ call_tool ghEmpty "get_recent_activity" ⟨some 0, none, none⟩
        = ["No recent activity found."]
    ∧ ¬ containsSub "No repositories found." "limit must be between 1 and 100"
    ∧ ¬ containsSub "No recent activity found." "limit must be between 1 and 100" := by
  decide

/-- C6: for every tool name and argument mapping, dispatch returns exactly
one text block: any failure escaping the dispatch body is converted to the
single block `Error: {message}` at the outermost boundary, and an unknown
tool name produces the error text `Unknown tool: {name}`. -/
theorem c6_call_tool_total_single_block :
    ∀ (gh : GitHubClientM) (name : String) (args : ToolArgs),
      (∃ t, call_tool gh name args = [t])
      ∧ (∀ e, dispatch gh name args = .error e →
          call_tool gh name args = ["Error: " ++ e])
      ∧ (name ∉ (["get_my_repos", "get_repo_details", "search_my_code",
            "get_recent_activity"] : List String) →
          call_tool gh name args = ["Error: Unknown tool: " ++ name]) := by
  intro gh name args
  refine ⟨?_, ?_, ?_⟩
  · rcases hd : dispatch gh name args with e | bs
    · exact ⟨"Error: " ++ e, by simp [call_tool, hd]⟩
    · obtain ⟨t, ht⟩ := dispatch_ok_singleton _ _ _ _ hd
      exact ⟨t, by simp [call_tool, hd, ht]⟩
  · intro e he
    simp [call_tool, he]
  · intro hn
    have h1 : ¬ (name = "get_my_repos") := fun hh => hn (by simp [hh])
    have h2 : ¬ (name = "get_repo_details") := fun hh => hn (by simp [hh])
    have h3 : ¬ (name = "search_my_code") := fun hh => hn (by simp [hh])
    have h4 : ¬ (name = "get_recent_activity") := fun hh => hn (by simp [hh])
    simp [call_tool, dispatch, h1, h2, h3, h4]
    rfl

/-- Witness for C6 at a concrete unknown tool name. -/
theorem c6_call_tool_total_single_block_witness :
    ("frobnicate" ∉ (["get_my_repos", "get_repo_details", "search_my_code",
        "get_recent_activity"] : List String))
    ∧ call_tool ghEmpty "frobnicate" ⟨none, none, none⟩
        = ["Error: Unknown tool: frobnicate"] :=
  ⟨by decide,
   (c6_call_tool_total_single_block ghEmpty "frobnicate" ⟨none, none, none⟩).2.2 (by decide)⟩

/-- C9: a call to get_repo_details without a repo_name argument, and a call
to search_my_code without a query argument, each produce the error text
block consisting exactly of the quoted missing key (the `str` of the
`KeyError` reaching the outermost catch), with no further explanation. -/
theorem c9_missing_argument_error_text :
    ∀ (gh : GitHubClientM) (args : ToolArgs),
      (args.repo_name = none →
        call_tool gh "get_repo_details" args = ["Error: 'repo_name'"])
      ∧ (args.query = none →
        call_tool gh "search_my_code" args = ["Error: 'query'"]) := by
  intro gh args
  constructor
  · intro hr
    simp [call_tool, dispatch, hr]
  · intro hq
    simp [call_tool, dispatch, hq]

/-- Witness for C9 at concrete empty argument mappings. -/
theorem c9_missing_argument_error_text_witness :
    (ToolArgs.mk none none none).repo_name = none
    ∧ call_tool ghEmpty "get_repo_details" ⟨none, none, none⟩ = ["Error: 'repo_name'"]
    ∧ call_tool ghEmpty "search_my_code" ⟨none, none, none⟩ = ["Error: 'query'"] :=
  ⟨rfl, (c9_missing_argument_error_text ghEmpty ⟨none, none, none⟩).1 rfl,
   (c9_missing_argument_error_text ghEmpty ⟨none, none, none⟩).2 rfl⟩

/-- C2: the shared request path translates every relevant non-2xx status
into a fixed failure message: 401 mentions the failed authentication and
the token; 403 with "rate limit" in the lowercased body mentions the
exceeded rate limit and carries the reset header value, or "unknown" when
the header is absent; any other 403 is the forbidden-access message
referencing token permissions; 404 is exactly the not-found message. -/
theorem c2_api_error_translation :
    ∀ (body : String) (reset : Option String),
      api_error_message 401 body reset = "Authentication failed. Check your GITHUB_TOKEN."
      ∧ containsSub (api_error_message 401 body reset) "Authentication failed"
      ∧ containsSub (api_error_message 401 body reset) "GITHUB_TOKEN"
      ∧ (containsSub (lowerStr body) "rate limit" →
          api_error_message 403 body reset
            = "GitHub API rate limit exceeded. Resets at: " ++ reset.getD "unknown"
          ∧ containsSub (api_error_message 403 body reset) "rate limit exceeded"
          ∧ containsSub (api_error_message 403 body reset) (reset.getD "unknown"))
      ∧ (¬ containsSub (lowerStr body) "rate limit" →
          api_error_message 403 body reset
            = "Access forbidden. Check token permissions (need 'repo' scope).")
      ∧ api_error_message 404 body reset = "Resource not found or not accessible." := by
  intro body reset
  refine ⟨rfl, ?_, ?_, ?_, ?_, rfl⟩
  · exact (by decide :
      containsSub "Authentication failed. Check your GITHUB_TOKEN." "Authentication failed")
  · exact (by decide :
      containsSub "Authentication failed. Check your GITHUB_TOKEN." "GITHUB_TOKEN")
  · intro hrl
    have hmsg : api_error_message 403 body reset
        = "GitHub API rate limit exceeded. Resets at: " ++ reset.getD "unknown" := by
      simp [api_error_message, hrl]
    refine ⟨hmsg, ?_, ?_⟩
    · rw [hmsg]
      exact containsSub_append_left _ _ _ (by decide)
    · rw [hmsg]
      exact containsSub_append_right _ _
  · intro hrl
    simp [api_error_message, hrl]

/-- Witness for C2 at a concrete rate-limited body, a concrete forbidden
body and a present reset header. -/
theorem c2_api_error_translation_witness :
    containsSub (lowerStr "API Rate Limit exceeded for user") "rate limit"
    ∧ api_error_message 403 "API Rate Limit exceeded for user" (some "1708000000")
        = "GitHub API rate limit exceeded. Resets at: 1708000000"
    ∧ (¬ containsSub (lowerStr "bad credentials") "rate limit")
    ∧ api_error_message 403 "bad credentials" none
        = "Access forbidden. Check token permissions (need 'repo' scope)." :=
  ⟨by decide,
   ((c2_api_error_translation "API Rate Limit exceeded for user" (some "1708000000")).2.2.2.1
      (by decide)).1,
   by decide,
   (c2_api_error_translation "bad credentials" none).2.2.2.2.1 (by decide)⟩

/-- C5: a repo reference with a slash is split at its first slash only
("a/b/c" gives owner "a", name "b/c"; in general owner ++ "/" ++ name
reassembles the input and the owner is slash-free); a reference without a
slash, including the empty string, keeps the configured username as owner. -/
theorem c5_parse_repo_ref :
    (∀ username : String, parse_repo_name username "a/b/c" = ("a", "b/c"))
    ∧ (∀ username repo_name : String, '/' ∉ repo_name.data →
        parse_repo_name username repo_name = (username, repo_name))
    ∧ (∀ username : String, parse_repo_name username "" = (username, ""))
    ∧ (∀ username repo_name owner name : String, '/' ∈ repo_name.data →
        parse_repo_name username repo_name = (owner, name) →
        owner.data ++ '/' :: name.data = repo_name.data ∧ '/' ∉ owner.data) := by
  refine ⟨fun username => rfl, ?_, fun username => rfl, ?_⟩
  · intro username repo_name hno
    simp [parse_repo_name, hno]
  · intro username repo_name owner name hmem hparse
    rw [parse_repo_name, if_pos hmem] at hparse
    obtain ⟨h1, h2⟩ := Prod.mk.injEq _ _ _ _ ▸ hparse
    obtain ⟨hs1, hs2⟩ := split_first_slash_spec repo_name.data hmem
    constructor
    · rw [← h1, ← h2]
      exact hs1
    · rw [← h1]
      exact hs2

/-- Witness for C5 at concrete slash-free and slash-containing inputs. -/
theorem c5_parse_repo_ref_witness :
    ('/' ∉ "plain".data)
    ∧ parse_repo_name "jw1" "plain" = ("jw1", "plain")
    ∧ ('/' ∈ "a/b/c".data)
    ∧ ("a".data ++ '/' :: "b/c".data = "a/b/c".data ∧ '/' ∉ "a".data) :=
  ⟨by decide,
   (c5_parse_repo_ref).2.1 "jw1" "plain" (by decide),
   by decide,
   (c5_parse_repo_ref).2.2.2 "jw1" "a/b/c" "a" "b/c" (by decide) (by decide)⟩

/-- C3 counterexample: a non-empty breakdown whose byte counts sum to zero
still emits a percentage line ("0.0%"); the emitted percentages are not
empty as the claim states for the zero-sum case. -/
theorem c3_zero_sum_emits_lines :
    ([("A", (0 : Int))].map Prod.snd).sum = 0
    ∧ language_section [("A", (0 : Int))] = ["\n## Language Breakdown", "- A: 0.0%"]
    ∧ language_section [("A", (0 : Int))] ≠ [] := by decide

/-- C3 (amended): each emitted percentage is the language's byte count
divided by the total times 100, rounded to one decimal (the example
breakdown gives 66.7% and 33.3%); an empty breakdown emits nothing, but a
non-empty breakdown whose counts sum to zero emits a 0.0% line per listed
language instead of an empty percentage list. -/
theorem c3_language_percentages :
    language_section [] = []
    ∧ language_section [("Python", 1000), ("JavaScript", 500)]
        = ["\n## Language Breakdown", "- Python: 66.7%", "- JavaScript: 33.3%"]
    ∧ (∀ lang : String, language_section [(lang, 0)]
        = ["\n## Language Breakdown", "- " ++ lang ++ ": 0.0%"])
    ∧ (∀ b total : Int, 0 < total →
        round_div (b * 1000) total = round ((b : ℚ) / (total : ℚ) * 100 * 10)) := by
  refine ⟨rfl, by decide, ?_, ?_⟩
  · intro lang
    simp [language_section, fmt_pct, List.insertionSort, String.append_assoc]
  · intro b total htot
    rw [round_div_eq_round _ _ htot]
    congr 1
    have hne : (total : ℚ) ≠ 0 := by exact_mod_cast htot.ne'
    push_cast
    field_simp
    ring

/-- Witness for C3 at a concrete positive total. -/
theorem c3_language_percentages_witness :
    (0 : Int) < 1500
    ∧ round_div (1000 * 1000) 1500 = round ((1000 : ℚ) / (1500 : ℚ) * 100 * 10) :=
  ⟨by decide, (c3_language_percentages).2.2.2 1000 1500 (by decide)⟩

/-- C4: once the primary repository fetch succeeds, no outcome of the
secondary languages fetch can fail the call: an error or a non-mapping
response leaves an empty breakdown, and in a mapping response exactly the
entries whose values coerce to int are kept, the rest dropped one by one. -/
theorem c4_languages_failure_swallowed :
    ∀ (repo_data : JVal) (langs : Except String JVal) (e : String),
      (∃ x, get_repo_details_client (.ok repo_data) langs = .ok x)
      ∧ get_repo_details_client (.ok repo_data) (.error e) = .ok (repo_data, [])
      ∧ (∀ v : JVal, v.isObj = false →
          get_repo_details_client (.ok repo_data) (.ok v) = .ok (repo_data, []))
      ∧ (∀ (fields : List (String × JVal)) (k : String) (n : Int),
          (k, n) ∈ coerce_languages (.obj fields)
            ↔ ∃ v : JVal, (k, v) ∈ fields ∧ pyInt v = some n) := by
  intro repo_data langs e
  refine ⟨?_, rfl, ?_, ?_⟩
  · cases langs <;> exact ⟨_, rfl⟩
  · intro v hv
    cases v <;> first
      | rfl
      | (simp [JVal.isObj] at hv)
  · intro fields k n
    simp only [coerce_languages, List.mem_filterMap, Option.map_eq_some']
    constructor
    · rintro ⟨⟨k2, v⟩, hmem, m, hpy, heq⟩
      cases heq
      exact ⟨v, hmem, hpy⟩
    · rintro ⟨v, hmem, hpy⟩
      exact ⟨(k, v), hmem, n, hpy, rfl⟩

/-- Witness for C4 at a concrete failed fetch, a concrete non-mapping
response and a concrete mixed mapping. -/
theorem c4_languages_failure_swallowed_witness :
    (JVal.arr []).isObj = false
    ∧ get_repo_details_client (.ok (.str "repo")) (.ok (.arr []))
        = .ok (.str "repo", [])
    ∧ get_repo_details_client (.ok (.str "repo")) (.error "boom")
        = .ok (.str "repo", [])
    ∧ ((("Python", (1000 : Int)) ∈ coerce_languages
          (.obj [("Python", .int 1000), ("Bad", .null)]))
        ↔ ∃ v : JVal, ("Python", v) ∈ [("Python", JVal.int 1000), ("Bad", JVal.null)]
            ∧ pyInt v = some 1000) :=
  ⟨rfl,
   (c4_languages_failure_swallowed (.str "repo") (.ok (.arr [])) "boom").2.2.1 (.arr []) rfl,
   (c4_languages_failure_swallowed (.str "repo") (.error "boom") "boom").2.1,
   (c4_languages_failure_swallowed (.str "repo") (.error "boom") "boom").2.2.2
     [("Python", .int 1000), ("Bad", .null)] "Python" 1000⟩

/-- C7: when the upstream call succeeds, an empty repository list, an empty
event list, and a search with total_count 0 each produce the explicit
empty-result success block, never an error block. -/
theorem c7_empty_results_success :
    ∀ (gh : GitHubClientM) (args : ToolArgs),
      (gh.get_user_repos (args.limit.getD 30) = .ok [] →
        call_tool gh "get_my_repos" args = ["No repositories found."])
      ∧ (gh.get_user_events (args.limit.getD 30) = .ok [] →
        call_tool gh "get_recent_activity" args = ["No recent activity found."])
      ∧ (∀ (q : String) (tc : Option Int) (items : List SearchItem),
          args.query = some q → tc.getD 0 = 0 →
          gh.search_code q (args.limit.getD 30) = .ok ⟨tc, items⟩ →
          call_tool gh "search_my_code" args
            = ["No code matches found for query: '" ++ q ++ "'"]) := by
  intro gh args
  refine ⟨?_, ?_, ?_⟩
  · intro h
    simp [call_tool, dispatch, get_my_repos, h]
  · intro h
    simp [call_tool, dispatch, get_recent_activity, h]
  · intro q tc items hq htc hs
    simp [call_tool, dispatch, hq, search_my_code, hs, htc]

/-- Witness for C7 with a client whose upstream returns empty results. -/
theorem c7_empty_results_success_witness :
    ghEmpty.get_user_repos ((ToolArgs.mk none none (some "zzz")).limit.getD 30) = .ok []
    ∧ call_tool ghEmpty "get_my_repos" ⟨none, none, some "zzz"⟩
        = ["No repositories found."]
    ∧ call_tool ghEmpty "get_recent_activity" ⟨none, none, some "zzz"⟩
        = ["No recent activity found."]
    ∧ call_tool ghEmpty "search_my_code" ⟨none, none, some "zzz"⟩
        = ["No code matches found for query: 'zzz'"] :=
  ⟨rfl,
   (c7_empty_results_success ghEmpty ⟨none, none, some "zzz"⟩).1 rfl,
   (c7_empty_results_success ghEmpty ⟨none, none, some "zzz"⟩).2.1 rfl,
   (c7_empty_results_success ghEmpty ⟨none, none, some "zzz"⟩).2.2 "zzz" (some 0) [] rfl rfl rfl⟩

/-- C8: all three client operations send `min(per_page, 100)` upstream:
values above 100 are clamped to 100, while 100 and below — including zero
and negatives — pass through unchanged, with no lower bound anywhere. -/
theorem c8_per_page_clamp :
    ∀ (p : Int) (sort username query : String),
      (get_user_repos_params p sort).lookup "per_page" = some (intDigits (min p 100))
      ∧ (search_code_params username query p).lookup "per_page"
          = some (intDigits (min p 100))
      ∧ (get_user_events_params p).lookup "per_page" = some (intDigits (min p 100))
      ∧ (100 < p → min p 100 = 100)
      ∧ (p ≤ 100 → min p 100 = p) := by
  intro p sort username query
  exact ⟨rfl, rfl, rfl, fun h => min_eq_right h.le, fun h => min_eq_left h⟩

/-- Witness for C8 at a value above the cap and a negative value. -/
theorem c8_per_page_clamp_witness :
    ((100 : Int) < 150 ∧ min (150 : Int) 100 = 100)
    ∧ ((-7 : Int) ≤ 100 ∧ min (-7 : Int) 100 = -7)
    ∧ (get_user_repos_params 150 "updated").lookup "per_page"
        = some (intDigits (min (150 : Int) 100)) :=
  ⟨⟨by decide, (c8_per_page_clamp 150 "updated" "jw1" "q").2.2.2.1 (by decide)⟩,
   ⟨by decide, (c8_per_page_clamp (-7) "updated" "jw1" "q").2.2.2.2 (by decide)⟩,
   (c8_per_page_clamp 150 "updated" "jw1" "q").1⟩

/-- C10: for a non-empty breakdown the emitted section is the header, one
percentage line per language for the first five of the descending
byte-count sort (a sorted permutation of the breakdown), and — when more
than five languages exist — one final count line; languages beyond the
fifth get no percentage line. -/
theorem c10_language_top5 :
    ∀ bd : List (String × Int), bd ≠ [] →
      language_section bd
        = "\n## Language Breakdown"
            :: ((List.insertionSort byBytesDesc bd).take 5).map
                (fun p => "- " ++ p.1 ++ ": " ++ fmt_pct p.2 ((bd.map Prod.snd).sum) ++ "%")
            ++ (if 5 < (List.insertionSort byBytesDesc bd).length then
                  ["- ...and "
                     ++ intDigits ((List.insertionSort byBytesDesc bd).length - 5) ++ " more"]
                else [])
      ∧ List.Sorted byBytesDesc (List.insertionSort byBytesDesc bd)
      ∧ List.Perm (List.insertionSort byBytesDesc bd) bd
      ∧ (((List.insertionSort byBytesDesc bd).take 5).map
            (fun p => "- " ++ p.1 ++ ": " ++ fmt_pct p.2 ((bd.map Prod.snd).sum) ++ "%")).length
          = min 5 bd.length
      ∧ (5 < bd.length →
          (language_section bd).getLast?
            = some ("- ...and " ++ intDigits (bd.length - 5) ++ " more")) := by
  intro bd hbd
  have hiff : bd.isEmpty = false := by simpa [List.isEmpty_iff] using hbd
  have hperm := List.perm_insertionSort byBytesDesc bd
  have hlen : (List.insertionSort byBytesDesc bd).length = bd.length := hperm.length_eq
  have hmain : language_section bd
      = "\n## Language Breakdown"
          :: ((List.insertionSort byBytesDesc bd).take 5).map
              (fun p => "- " ++ p.1 ++ ": " ++ fmt_pct p.2 ((bd.map Prod.snd).sum) ++ "%")
          ++ (if 5 < (List.insertionSort byBytesDesc bd).length then
                ["- ...and "
                   ++ intDigits ((List.insertionSort byBytesDesc bd).length - 5) ++ " more"]
              else []) := by
    simp only [language_section, hiff, Bool.false_eq_true, if_false]
  refine ⟨hmain, List.sorted_insertionSort byBytesDesc bd, hperm,
    by simp [List.length_take, hlen], ?_⟩
  intro h5
  have h5s : 5 < (List.insertionSort byBytesDesc bd).length := by omega
  rw [hmain, if_pos h5s, hlen]
  exact List.getLast?_concat _

/-- Witness for C10 at a concrete six-language breakdown. -/
theorem c10_language_top5_witness :
    ([("A", (6 : Int)), ("B", 5), ("C", 4), ("D", 3), ("E", 2), ("F", 1)]
        ≠ ([] : List (String × Int)))
    ∧ List.Sorted byBytesDesc (List.insertionSort byBytesDesc
        [("A", (6 : Int)), ("B", 5), ("C", 4), ("D", 3), ("E", 2), ("F", 1)])
    ∧ (language_section
        [("A", (6 : Int)), ("B", 5), ("C", 4), ("D", 3), ("E", 2), ("F", 1)]).getLast?
        = some "- ...and 1 more" := by
  have h := c10_language_top5
    [("A", (6 : Int)), ("B", 5), ("C", 4), ("D", 3), ("E", 2), ("F", 1)] (by decide)
  exact ⟨by decide, h.2.1, by rw [h.2.2.2.2 (by decide)]; decide⟩
